import Mathlib

/-!
Verification of the eventServer request-capture server.

The embedding follows `src/main.py` (FastAPI app: `index`, `clear_logs`,
`catch_all`, helpers `pretty_json`, `now_ist_str`).  Python's dynamically
typed JSON-like values are modelled by `PyVal`; the in-memory request log
`REQUEST_LOG` is a `List Entry`; each HTTP handler is a function from the
current log (plus request data) to the new log and the response.
-/

namespace EventServer

/-- A Python value as it can appear in a captured request body or a JSON
response: JSON values (null / bool / int / string / list / dict) plus
`nonJson`, an opaque non-JSON-serializable Python object carrying its
`str()` form. -/
inductive PyVal where
  | null : PyVal
  | bool : Bool → PyVal
  | int : Int → PyVal
  | str : String → PyVal
  | arr : List PyVal → PyVal
  | obj : List (String × PyVal) → PyVal
  | nonJson : String → PyVal

/-- `n` spaces, for JSON indentation. -/
def spaces (n : Nat) : String := String.mk (List.replicate n ' ')

/-- Lower-case hex digit. -/
def hexDigit (n : Nat) : Char :=
  if n < 10 then Char.ofNat (48 + n) else Char.ofNat (87 + (n - 10))

/-- Escape of a single character inside a JSON string literal
(`json.dumps` with `ensure_ascii=False`: only the quote, the backslash and
control characters are escaped). -/
def escChar (c : Char) : String :=
  if c = Char.ofNat 34 then "\\\""
  else if c = '\\' then "\\\\"
  else if c = '\n' then "\\n"
  else if c = '\t' then "\\t"
  else if c = '\r' then "\\r"
  else if c = Char.ofNat 8 then "\\b"
  else if c = Char.ofNat 12 then "\\f"
  else if c.toNat < 32 then
    "\\u00" ++ String.mk [hexDigit (c.toNat / 16), hexDigit (c.toNat % 16)]
  else String.singleton c

/-- Escape a whole string for inclusion in a JSON string literal. -/
def escapeJsonString (s : String) : String := String.join (s.toList.map escChar)

mutual
/-- `json.dumps(data, indent=2, ensure_ascii=False)` on a `PyVal`:
returns the pretty-printed encoding, or an error for a value containing a
non-serializable object (Python raises `TypeError`).  `lvl` is the current
indentation level. -/
def dumpsVal : PyVal → Nat → Except String String
  | .null, _ => .ok "null"
  | .bool true, _ => .ok "true"
  | .bool false, _ => .ok "false"
  | .int n, _ => .ok (toString n)
  | .str s, _ => .ok ("\"" ++ escapeJsonString s ++ "\"")
  | .arr [], _ => .ok "[]"
  | .arr (x :: xs), lvl =>
    match dumpsItems (x :: xs) (lvl + 2) with
    | .error e => .error e
    | .ok items =>
      .ok ("[\n" ++
           String.intercalate ",\n" (items.map fun it => spaces (lvl + 2) ++ it) ++
           "\n" ++ spaces lvl ++ "]")
  | .obj [], _ => .ok "\x7b\x7d"
  | .obj (kv :: kvs), lvl =>
    match dumpsPairs (kv :: kvs) (lvl + 2) with
    | .error e => .error e
    | .ok items =>
      .ok ("\x7b\n" ++
           String.intercalate ",\n" (items.map fun it => spaces (lvl + 2) ++ it) ++
           "\n" ++ spaces lvl ++ "\x7d")
  | .nonJson r, _ => .error ("Object of type " ++ r ++ " is not JSON serializable")

/-- Serialize each element of a JSON array. -/
def dumpsItems : List PyVal → Nat → Except String (List String)
  | [], _ => .ok []
  | x :: xs, lvl =>
    match dumpsVal x lvl with
    | .error e => .error e
    | .ok s =>
      match dumpsItems xs lvl with
      | .error e => .error e
      | .ok rest => .ok (s :: rest)

/-- Serialize each `key: value` pair of a JSON object. -/
def dumpsPairs : List (String × PyVal) → Nat → Except String (List String)
  | [], _ => .ok []
  | (k, v) :: kvs, lvl =>
    match dumpsVal v lvl with
    | .error e => .error e
    | .ok s =>
      match dumpsPairs kvs lvl with
      | .error e => .error e
      | .ok rest => .ok (("\"" ++ escapeJsonString k ++ "\": " ++ s) :: rest)
end

/-- A single-quote character, for Python `repr` of strings. -/
def squote : String := String.singleton (Char.ofNat 39)

mutual
/-- Python `repr` of a `PyVal` (used by `str()` on containers). -/
def pyRepr : PyVal → String
  | .null => "None"
  | .bool true => "True"
  | .bool false => "False"
  | .int n => toString n
  | .str s => squote ++ s ++ squote
  | .arr xs => "[" ++ String.intercalate ", " (pyReprList xs) ++ "]"
  | .obj kvs => "\x7b" ++ String.intercalate ", " (pyReprPairs kvs) ++ "\x7d"
  | .nonJson r => r

def pyReprList : List PyVal → List String
  | [] => []
  | x :: xs => pyRepr x :: pyReprList xs

def pyReprPairs : List (String × PyVal) → List String
  | [] => []
  | (k, v) :: kvs => (squote ++ k ++ squote ++ ": " ++ pyRepr v) :: pyReprPairs kvs
end

/-- Python `str()` of a `PyVal`: a string is returned verbatim, everything
else falls back to `repr`. -/
def pyStr : PyVal → String
  | .str s => s
  | v => pyRepr v

/-- The fallback object `{"unserializable": str(data)}` built by
`pretty_json` when `json.dumps` fails. -/
def fallbackObj (v : PyVal) : PyVal :=
  PyVal.obj [("unserializable", PyVal.str (pyStr v))]

/-- `pretty_json` from `main.py` / `app/utils.py`: try
`json.dumps(data, indent=2, ensure_ascii=False)`; on failure return
`json.dumps({"unserializable": str(data)}, indent=2)`.  (The fallback call
uses the same serializer; the two calls differ in Python only in the
`ensure_ascii` treatment of non-ASCII text.) -/
def pretty_json (v : PyVal) : String :=
  match dumpsVal v 0 with
  | .ok s => s
  | .error _ =>
    match dumpsVal (fallbackObj v) 0 with
    | .ok s => s
    | .error _ => ""

/-! ### Timestamps (`now_ist_str`) -/

/-- An IST wall-clock instant as `datetime.now(tz=ist)` yields it:
calendar date plus time of day with microseconds. -/
structure DateTime where
  year : Nat
  month : Nat
  day : Nat
  hour : Nat
  minute : Nat
  second : Nat
  microsecond : Nat

/-- Zero-padded two-digit decimal field, as `strftime` renders `%H`, `%M`,
`%S` (the inputs are always below 100). -/
def fmt02 (n : Nat) : String :=
  if n < 10 then "0" ++ Nat.repr n else Nat.repr n

/-- Python `f"{n:03d}"`: decimal with a minimum width of 3, zero-padded. -/
def fmt03 (n : Nat) : String :=
  if n < 10 then "00" ++ Nat.repr n
  else if n < 100 then "0" ++ Nat.repr n
  else Nat.repr n

/-- `now_ist_str` from `main.py` / `app/utils.py`:
`dt.strftime("%H:%M:%S:") + f"{int(dt.microsecond / 1000):03d}"`. -/
def now_ist_str (dt : DateTime) : String :=
  fmt02 dt.hour ++ ":" ++ fmt02 dt.minute ++ ":" ++ fmt02 dt.second ++ ":" ++
    fmt03 (dt.microsecond / 1000)

/-! ### Log entries, requests and responses -/

/-- One captured request, as built in `catch_all`:
`{"timestamp": ..., "endpoint": "/" + full_path, "method": ..., "json": data}`. -/
structure Entry where
  timestamp : String
  endpoint : String
  method : String
  json : PyVal

/-- The HTTP methods the catch-all route registers. -/
inductive Method where
  | GET | POST | PUT | PATCH | DELETE | OPTIONS
deriving DecidableEq

/-- The method's uppercase token, as `request.method` reports it. -/
def methodStr : Method → String
  | .GET => "GET"
  | .POST => "POST"
  | .PUT => "PUT"
  | .PATCH => "PATCH"
  | .DELETE => "DELETE"
  | .OPTIONS => "OPTIONS"

/-- An HTTP response produced by one of the three handlers. -/
inductive Response where
  | json : Nat → PyVal → Response
  | html : Nat → String → Response
  | redirect : Nat → String → Response

/-- Outcome of `await request.json()`: a parsed JSON value, or the message
of the exception raised on a malformed or absent body. -/
def BodyRead := Except String PyVal

/-! ### The display page (`index`) -/

/-- `html.escape(s)` with the default `quote=True`. -/
def escapeHtmlChar (c : Char) : String :=
  if c = '&' then "&amp;"
  else if c = '<' then "&lt;"
  else if c = '>' then "&gt;"
  else if c = Char.ofNat 34 then "&quot;"
  else if c = Char.ofNat 39 then "&#x27;"
  else String.singleton c

/-- `html.escape` over a whole string. -/
def escapeHtml (s : String) : String := String.join (s.toList.map escapeHtmlChar)

/-- The newest-first view of the store that `index` iterates
(`reversed(REQUEST_LOG)`). -/
def snapshot (log : List Entry) : List Entry := log.reverse

/-- One display card for an entry: the escaped timestamp, method, endpoint
and pretty-printed body, in the order the card template interpolates them
(the surrounding Tailwind markup is glue and is condensed to separators). -/
def buildCard (e : Entry) : String :=
  escapeHtml e.timestamp ++ " IST|" ++ escapeHtml e.method ++ "|" ++
    escapeHtml e.endpoint ++ "|" ++ escapeHtml (pretty_json e.json)

/-- The card list of the viewer page, newest first. -/
def renderIndex (log : List Entry) : String :=
  String.intercalate "\n" ((snapshot log).map buildCard)

/-- One step of the `index` handler, for reasoning about what work happens
inside the `with LOG_LOCK` block. -/
inductive DisplayAction where
  /-- `with LOG_LOCK:` acquires the store lock. -/
  | acquire : DisplayAction
  /-- the `with` block exits and releases the lock. -/
  | release : DisplayAction
  /-- `html.escape` of one string field of an entry. -/
  | escapeField : String → DisplayAction
  /-- `html.escape(pretty_json(item.get("json")))` for one entry. -/
  | formatBody : PyVal → DisplayAction
  /-- the f-string building one entry's card. -/
  | buildCardStep : DisplayAction
  /-- joining the cards and building the full page, after the block. -/
  | buildPage : DisplayAction

/-- Whether a step is formatting work (HTML escaping, JSON
pretty-printing, card construction). -/
def isFormatting : DisplayAction → Bool
  | .escapeField _ => true
  | .formatBody _ => true
  | .buildCardStep => true
  | _ => false

/-- The formatting steps the loop body of `index` performs for one entry,
in source order. -/
def entryFormatSteps (e : Entry) : List DisplayAction :=
  [.escapeField e.timestamp, .escapeField e.endpoint, .escapeField e.method,
   .formatBody e.json, .buildCardStep]

/-- The `index` handler as a trace of steps, each paired with whether
`LOG_LOCK` is held when it runs.  In `main.py` the `for item in
reversed(REQUEST_LOG)` loop and all its per-entry formatting are inside
the `with LOG_LOCK:` block; only the final page assembly follows it. -/
def indexTrace (log : List Entry) : List (DisplayAction × Bool) :=
  (DisplayAction.acquire, true) ::
    ((snapshot log).flatMap fun e => (entryFormatSteps e).map fun a => (a, true)) ++
    [(DisplayAction.release, true), (DisplayAction.buildPage, false)]

/-- `GET /` (`index`): renders the page; the store is not modified. -/
def index (log : List Entry) : List Entry × Response :=
  (log, Response.html 200 (renderIndex log))

/-! ### `clear_logs` and `catch_all` -/

/-- `POST /clear` (`clear_logs`): `REQUEST_LOG.clear()` under the lock,
then `RedirectResponse(url="/", status_code=303)`. -/
def clear_logs (_log : List Entry) : List Entry × Response :=
  ([], Response.redirect 303 "/")

/-- The `data` variable of `catch_all`: `None` unless the method is POST,
PUT or PATCH, in which case the body is parsed as JSON and a parse failure
becomes `{"_error": "Invalid or no JSON body", "detail": str(e)}`. -/
def parseData (m : Method) (body : BodyRead) : PyVal :=
  if m = .POST ∨ m = .PUT ∨ m = .PATCH then
    match body with
    | .ok v => v
    | .error e =>
      PyVal.obj [("_error", PyVal.str "Invalid or no JSON body"),
                 ("detail", PyVal.str e)]
  else PyVal.null

/-- The acknowledgement body
`{"status": "ok", "received": {"endpoint": ..., "method": ...}}`. -/
def ackBody (endpoint method : String) : PyVal :=
  PyVal.obj [("status", PyVal.str "ok"),
             ("received", PyVal.obj [("endpoint", PyVal.str endpoint),
                                     ("method", PyVal.str method)])]

/-- The catch-all route `/{full_path:path}`: build the entry, append it to
the store unless `full_path in ("", "clear")`, and acknowledge. -/
def catch_all (dt : DateTime) (m : Method) (full_path : String)
    (body : BodyRead) (log : List Entry) : List Entry × Response :=
  let data := parseData m body
  let entry : Entry :=
    { timestamp := now_ist_str dt
      endpoint := "/" ++ full_path
      method := methodStr m
      json := data }
  let log' := if full_path = "" ∨ full_path = "clear" then log else log ++ [entry]
  (log', Response.json 200 (ackBody entry.endpoint entry.method))

/-- Route dispatch of the FastAPI app: `GET /` → `index`,
`POST /clear` → `clear_logs`, everything else → `catch_all`. -/
def handle_request (dt : DateTime) (m : Method) (full_path : String)
    (body : BodyRead) (log : List Entry) : List Entry × Response :=
  if m = .GET ∧ full_path = "" then index log
  else if m = .POST ∧ full_path = "clear" then clear_logs log
  else catch_all dt m full_path body log

/-! ### Event Flattener (`GET /events-feed`)

The spec describes an Event Flattener and a `GET /events-feed` route; no
handler for that route exists in the provided source files, so the
component is modelled from the spec's words. -/

/-- Modelled from the spec: the Event Flattener's per-element step, missing
from the source — "for each element, produce a deep copy, attach
`_received_at` = entry.timestamp and `_source_endpoint` = entry.endpoint".
Values are immutable here, so the deep copy is the value itself; the two
provenance keys are attached to object elements (a non-object element has
no keys to extend and is passed through). -/
def attachProvenance (v : PyVal) (ts ep : String) : PyVal :=
  match v with
  | .obj kvs =>
    PyVal.obj (kvs ++ [("_received_at", PyVal.str ts), ("_source_endpoint", PyVal.str ep)])
  | v => v

/-- Modelled from the spec: the `events` field of an entry's body, missing
from the source — present exactly when the body "is a JSON object
containing a key `events`". -/
def eventsField (e : Entry) : Option PyVal :=
  match e.json with
  | .obj kvs => kvs.lookup "events"
  | _ => none

/-- Modelled from the spec: the events one entry contributes, missing from
the source — its `events` array elements with provenance attached when the
body is an object whose `events` value is an array, and nothing otherwise. -/
def entryEvents (e : Entry) : List PyVal :=
  match eventsField e with
  | some (.arr evs) => evs.map fun ev => attachProvenance ev e.timestamp e.endpoint
  | _ => []

/-- Modelled from the spec: the Event Flattener, missing from the source —
entries are processed in store (oldest-first) order, each contributing its
events in their original array order. -/
def flatten_events (log : List Entry) : List PyVal := log.flatMap entryEvents

/-- Modelled from the spec: the `GET /events-feed` handler, missing from
the source — returns `{"events": [...]}` with the Event Flattener's
output; a read path, so the store is unchanged. -/
def events_feed (log : List Entry) : List Entry × Response :=
  (log, Response.json 200 (PyVal.obj [("events", PyVal.arr (flatten_events log))]))

/-! ### Concrete instants and entries used to instantiate theorems -/

/-- A fixed capture instant. -/
def dt0 : DateTime :=
  { year := 2025, month := 1, day := 1, hour := 12, minute := 0, second := 0,
    microsecond := 0 }

/-- A fixed log entry. -/
def e0 : Entry :=
  { timestamp := "12:00:00:000", endpoint := "/hook", method := "POST",
    json := PyVal.null }

/-! ## Theorems -/

/-- C5: the Snapshot Reader is the pure reversal function: entries appended
A, B, C are displayed [C, B, A]; in general the snapshot is `List.reverse`,
hence a permutation of the store (no entry filtered out or duplicated), and
the input entries are values, never mutated. -/
theorem C5_snapshot_is_pure_reversal (log : List Entry) (a b c : Entry) :
    snapshot [a, b, c] = [c, b, a] ∧
    snapshot log = log.reverse ∧
    (snapshot log).Perm log := by
  refine ⟨rfl, rfl, List.reverse_perm log⟩

/-- C6: after `clear()` the Log Store is empty — a snapshot with no
intervening append is the empty sequence — and the `POST /clear` handler
responds with an HTTP 303 redirect to `/`. -/
theorem C6_clear_empties_store (dt : DateTime) (body : BodyRead) (log : List Entry) :
    handle_request dt .POST "clear" body log = ([], Response.redirect 303 "/") ∧
    snapshot (handle_request dt .POST "clear" body log).1 = [] := by
  constructor <;> rfl

/-- C7: every request the catch-all handler receives is acknowledged with
`{"status": "ok", "received": {"endpoint": "/" + path, "method": METHOD}}`,
and the acknowledgement does not depend on the store — it is identical
whether or not the entry was appended (suppressed paths included). -/
theorem C7_catch_all_acknowledgement (dt : DateTime) (m : Method) (p : String)
    (body : BodyRead) (log log' : List Entry) :
    (catch_all dt m p body log).2 =
      Response.json 200 (ackBody ("/" ++ p) (methodStr m)) ∧
    (catch_all dt m p body log).2 = (catch_all dt m p body log').2 := by
  constructor <;> rfl

/-- C3: requests to the root path `""` or the clear path `"clear"` never
increase the Log Store's length, for every method; every other path makes
the catch-all handler append exactly one entry, regardless of method. -/
theorem C3_suppression_policy (dt : DateTime) (m : Method) (p : String)
    (body : BodyRead) (log : List Entry) :
    ((p = "" ∨ p = "clear") →
      ((handle_request dt m p body log).1).length ≤ log.length) ∧
    (¬(p = "" ∨ p = "clear") →
      ((catch_all dt m p body log).1).length = log.length + 1) := by
  constructor
  · rintro (rfl | rfl) <;>
      cases m <;>
        simp [handle_request, index, clear_logs, catch_all]
  · intro hp
    simp [catch_all, hp]

/-- Witness for C3 at concrete inputs: a `GET /clear` does not grow the
store, while the catch-all on path `hook` grows it by exactly one. -/
theorem C3_suppression_policy_witness :
    ((handle_request dt0 .GET "clear" (Except.ok PyVal.null) [e0]).1).length ≤
      [e0].length ∧
    ((catch_all dt0 .GET "hook" (Except.ok PyVal.null) [e0]).1).length =
      [e0].length + 1 :=
  ⟨(C3_suppression_policy dt0 .GET "clear" (Except.ok PyVal.null) [e0]).1
      (Or.inr rfl),
   (C3_suppression_policy dt0 .GET "hook" (Except.ok PyVal.null) [e0]).2
      (by simp)⟩

/-- C9: a request to path `clear` with any method other than POST is routed
to the catch-all, which neither clears nor appends (the path is in the
suppression set); the store is unchanged and the caller still receives the
normal ok acknowledgement. -/
theorem C9_nonpost_clear_is_frame (dt : DateTime) (m : Method) (body : BodyRead)
    (log : List Entry) (h : m ≠ .POST) :
    handle_request dt m "clear" body log =
      (log, Response.json 200 (ackBody "/clear" (methodStr m))) := by
  cases m
  case POST => exact absurd rfl h
  all_goals rfl

/-- Witness for C9: a concrete `GET /clear` leaves the one-entry store
unchanged and is acknowledged. -/
theorem C9_nonpost_clear_is_frame_witness :
    handle_request dt0 .GET "clear" (Except.ok PyVal.null) [e0] =
      ([e0], Response.json 200 (ackBody "/clear" (methodStr .GET))) :=
  C9_nonpost_clear_is_frame dt0 .GET (Except.ok PyVal.null) [e0] (by decide)

/-- C4 as stated is false: a POST with a malformed body to the suppressed
root path stores no entry at all (the store stays empty), and a POST with a
malformed body to path `clear` is routed to `clear_logs`, whose response is
a 303 redirect, not the ok acknowledgement. -/
theorem C4_counterexample :
    (handle_request dt0 .POST ""
        (Except.error "Expecting value: line 1 column 1 (char 0)") []).1 = [] ∧
    (handle_request dt0 .POST "clear"
        (Except.error "Expecting value: line 1 column 1 (char 0)") []).2 =
      Response.redirect 303 "/" :=
  ⟨rfl, rfl⟩

/-- C4 amended: for every request with method POST, PUT or PATCH whose body
fails to parse, and whose path is not in the suppression set `{"", "clear"}`,
the handler appends an entry whose body is the object with the `_error`
marker and the `detail` string, and still responds with the normal ok
acknowledgement. -/
theorem C4_amended_malformed_body (dt : DateTime) (m : Method) (p e : String)
    (log : List Entry) (hm : m = .POST ∨ m = .PUT ∨ m = .PATCH)
    (hp1 : p ≠ "") (hp2 : p ≠ "clear") :
    handle_request dt m p (Except.error e) log =
      (log ++ [{ timestamp := now_ist_str dt
                 endpoint := "/" ++ p
                 method := methodStr m
                 json := PyVal.obj
                   [("_error", PyVal.str "Invalid or no JSON body"),
                    ("detail", PyVal.str e)] }],
       Response.json 200 (ackBody ("/" ++ p) (methodStr m))) := by
  unfold handle_request catch_all parseData
  rw [if_neg (fun hc => hp1 hc.2), if_neg (fun hc => hp2 hc.2), if_pos hm]
  simp [hp1, hp2]

/-- Witness for C4 amended: a concrete malformed POST to `/foo` on an empty
store. -/
theorem C4_amended_malformed_body_witness :
    handle_request dt0 .POST "foo"
        (Except.error "Expecting value: line 1 column 1 (char 0)") [] =
      ([{ timestamp := now_ist_str dt0
          endpoint := "/foo"
          method := methodStr .POST
          json := PyVal.obj
            [("_error", PyVal.str "Invalid or no JSON body"),
             ("detail",
              PyVal.str "Expecting value: line 1 column 1 (char 0)")] }],
       Response.json 200 (ackBody "/foo" (methodStr .POST))) := by
  have h := C4_amended_malformed_body dt0 .POST "foo"
    "Expecting value: line 1 column 1 (char 0)" []
    (Or.inl rfl) (by decide) (by decide)
  simpa using h

/-- C2 as stated is false on the code: in `index` the `for item in
reversed(REQUEST_LOG)` loop and all per-entry formatting run inside the
`with LOG_LOCK:` block, so on a store holding one entry the handler trace
contains a formatting step executed while the lock is held — the claim that
no formatting work ever executes inside the critical section fails. -/
theorem C2_counterexample :
    ((indexTrace [e0]).any fun p => isFormatting p.1 && p.2) = true := by
  decide

/-- C2 amended: the display read path does not decouple formatting from the
critical section — every formatting step (HTML escaping, JSON
pretty-printing, card construction) of the `index` trace executes while the
exclusion lock is held; only the final page assembly runs after release. -/
theorem C2_amended_formatting_inside_lock (log : List Entry)
    (a : DisplayAction) (b : Bool) (h : (a, b) ∈ indexTrace log) :
    (isFormatting a = true → b = true) ∧
    (a = DisplayAction.buildPage → b = false) := by
  simp [indexTrace, entryFormatSteps, snapshot] at h
  rcases h with ⟨rfl, rfl⟩ |
      ⟨e, _, ⟨rfl, rfl⟩ | ⟨rfl, rfl⟩ | ⟨rfl, rfl⟩ | ⟨rfl, rfl⟩ | ⟨rfl, rfl⟩⟩ |
      ⟨rfl, rfl⟩ | ⟨rfl, rfl⟩
  · exact ⟨fun _ => rfl, fun hf => by cases hf⟩
  · exact ⟨fun _ => rfl, fun hf => by cases hf⟩
  · exact ⟨fun _ => rfl, fun hf => by cases hf⟩
  · exact ⟨fun _ => rfl, fun hf => by cases hf⟩
  · exact ⟨fun _ => rfl, fun hf => by cases hf⟩
  · exact ⟨fun _ => rfl, fun hf => by cases hf⟩
  · exact ⟨fun _ => rfl, fun hf => by cases hf⟩
  · exact ⟨fun hf => by simp [isFormatting] at hf, fun _ => rfl⟩

/-- Witness for C2 amended: the card-construction step of the trace on a
one-entry store runs with the lock held. -/
theorem C2_amended_formatting_inside_lock_witness :
    (isFormatting DisplayAction.buildCardStep = true → (true : Bool) = true) ∧
    (DisplayAction.buildCardStep = DisplayAction.buildPage →
      (true : Bool) = false) :=
  C2_amended_formatting_inside_lock [e0] DisplayAction.buildCardStep true
    (by simp [indexTrace, entryFormatSteps, snapshot, e0])

/-- C1: `GET /events-feed` is a pure read returning `{"events": [...]}`
with the Event Flattener's output; flattening processes entries in store
(oldest-first) order, an entry whose body is an object with an `events`
array contributes each element augmented with `_received_at` and
`_source_endpoint`, and an entry of any other shape contributes zero
events. -/
theorem C1_events_feed_flattening (log : List Entry) :
    (events_feed log).1 = log ∧
    (events_feed log).2 =
      Response.json 200 (PyVal.obj [("events", PyVal.arr (flatten_events log))]) ∧
    (∀ l1 l2 : List Entry,
      flatten_events (l1 ++ l2) = flatten_events l1 ++ flatten_events l2) ∧
    (∀ (e : Entry) (evs : List PyVal), eventsField e = some (PyVal.arr evs) →
      entryEvents e =
        evs.map fun ev => attachProvenance ev e.timestamp e.endpoint) ∧
    (∀ e : Entry, (∀ evs : List PyVal, eventsField e ≠ some (PyVal.arr evs)) →
      entryEvents e = []) := by
  refine ⟨rfl, rfl, ?_, ?_, ?_⟩
  · intro l1 l2
    simp [flatten_events]
  · intro e evs hev
    simp [entryEvents, hev]
  · intro e he
    unfold entryEvents
    cases hev : eventsField e with
    | none => rfl
    | some v =>
      cases v with
      | arr evs => exact absurd hev (he evs)
      | null => rfl
      | bool bv => rfl
      | int n => rfl
      | str s => rfl
      | obj kvs => rfl
      | nonJson r => rfl

/-- The stored entry of the spec's event-flattening example: endpoint
`/hook`, timestamp `T1`, body `{"events": [{"a": 1}, {"b": 2}]}`. -/
def eHook : Entry :=
  { timestamp := "T1", endpoint := "/hook", method := "POST",
    json := PyVal.obj
      [("events", PyVal.arr [PyVal.obj [("a", PyVal.int 1)],
                             PyVal.obj [("b", PyVal.int 2)]])] }

/-- Witness for C1 at the spec's concrete example: both events come out
augmented with the provenance fields, in array order. -/
theorem C1_events_feed_flattening_witness :
    entryEvents eHook =
      [PyVal.obj [("a", PyVal.int 1), ("_received_at", PyVal.str "T1"),
                  ("_source_endpoint", PyVal.str "/hook")],
       PyVal.obj [("b", PyVal.int 2), ("_received_at", PyVal.str "T1"),
                  ("_source_endpoint", PyVal.str "/hook")]] := by
  have h := (C1_events_feed_flattening [eHook]).2.2.2.1 eHook
    [PyVal.obj [("a", PyVal.int 1)], PyVal.obj [("b", PyVal.int 2)]] rfl
  simpa [eHook, attachProvenance] using h

/-- C8: `pretty_json` never propagates a fault: when `json.dumps` succeeds
it returns that pretty-printed encoding, and when it fails it returns the
(always successful) encoding of the fallback object
`{"unserializable": str(data)}`. -/
theorem C8_pretty_json_total_fallback (v : PyVal) :
    (∀ s, dumpsVal v 0 = Except.ok s → pretty_json v = s) ∧
    (∀ err, dumpsVal v 0 = Except.error err →
      ∃ s, dumpsVal (fallbackObj v) 0 = Except.ok s ∧ pretty_json v = s) := by
  constructor
  · intro s h
    simp [pretty_json, h]
  · intro err h
    cases hfb : dumpsVal (fallbackObj v) 0 with
    | ok s => exact ⟨s, rfl, by simp [pretty_json, h, hfb]⟩
    | error e' =>
      exfalso
      simp [fallbackObj, dumpsVal, dumpsPairs] at hfb

/-- Witness for C8: a non-serializable value falls back to the
`{"unserializable": ...}` encoding. -/
theorem C8_pretty_json_total_fallback_witness :
    ∃ s, dumpsVal (fallbackObj (PyVal.nonJson "ValueError")) 0 = Except.ok s ∧
      pretty_json (PyVal.nonJson "ValueError") = s :=
  (C8_pretty_json_total_fallback (PyVal.nonJson "ValueError")).2
    ("Object of type " ++ "ValueError" ++ " is not JSON serializable")
    (by simp [dumpsVal])

set_option maxRecDepth 4000 in
/-- Exact length of the two-digit zero-padded field for inputs below 100. -/
theorem fmt02_length_of_lt : ∀ n < 100, (fmt02 n).length = 2 := by decide

set_option maxRecDepth 20000 in
/-- Exact length of `f"{n:03d}"` for inputs below 1000. -/
theorem fmt03_length_of_lt : ∀ n < 1000, (fmt03 n).length = 3 := by decide

/-- C10: for a valid wall-clock instant the timestamp is the 12-character
time-of-day string `HH:MM:SS:mmm`; the final field is the microseconds
divided by 1000, zero-padded to exactly three digits and always at most
999; the output has no date component — two instants with equal time of
day on different dates produce the same string, so timestamps repeat
across days.  Every captured entry receives such a timestamp: the entry
`catch_all` appends carries `now_ist_str dt`. -/
theorem C10_timestamp_format (dt : DateTime) (hh : dt.hour < 24)
    (hm : dt.minute < 60) (hs : dt.second < 60)
    (hus : dt.microsecond < 1000000) :
    (now_ist_str dt).length = 12 ∧
    now_ist_str dt =
      fmt02 dt.hour ++ ":" ++ fmt02 dt.minute ++ ":" ++ fmt02 dt.second ++ ":" ++
        fmt03 (dt.microsecond / 1000) ∧
    dt.microsecond / 1000 ≤ 999 ∧
    (fmt03 (dt.microsecond / 1000)).length = 3 ∧
    (∀ dt' : DateTime, dt'.hour = dt.hour → dt'.minute = dt.minute →
      dt'.second = dt.second → dt'.microsecond = dt.microsecond →
      now_ist_str dt' = now_ist_str dt) ∧
    (∀ (m : Method) (p : String) (body : BodyRead) (log : List Entry),
      ∀ e ∈ (catch_all dt m p body log).1,
        e ∈ log ∨ e.timestamp = now_ist_str dt) := by
  have hms : dt.microsecond / 1000 ≤ 999 := by omega
  have h3 : (fmt03 (dt.microsecond / 1000)).length = 3 :=
    fmt03_length_of_lt _ (by omega)
  refine ⟨?_, rfl, hms, h3, ?_, ?_⟩
  · simp [now_ist_str, String.length_append,
      fmt02_length_of_lt dt.hour (by omega),
      fmt02_length_of_lt dt.minute (by omega),
      fmt02_length_of_lt dt.second (by omega), h3]
    decide
  · intro dt' h1 h2 h3 h4
    simp [now_ist_str, h1, h2, h3, h4]
  · intro m p body log e he
    simp only [catch_all] at he
    by_cases hp : p = "" ∨ p = "clear"
    · rw [if_pos hp] at he
      exact Or.inl he
    · rw [if_neg hp] at he
      rcases List.mem_append.1 he with h | h
      · exact Or.inl h
      · right
        rw [List.mem_singleton.1 h]

/-- Witness for C10 at the fixed instant `dt0`. -/
theorem C10_timestamp_format_witness : (now_ist_str dt0).length = 12 :=
  (C10_timestamp_format dt0 (by decide) (by decide) (by decide) (by decide)).1

end EventServer
